import Mathlib

/-!
Verification of the Flask inventory demo app (`app.py`) against its
natural-language specification.

The Python source is shallowly embedded: prices and percentages are
rationals (ℚ), `round(x, 2)` is `round2`, Python truthiness on the
three request-body fields is the `truthy` predicate, `float(...)`
coercion is `toFloat`/`parseFloat`, and raised exceptions surface as
explicit error constructors.  The simulated-latency sleeps in the
async pricing code carry no data, so they are dropped; the random
discount draw is modelled by quantifying over an arbitrary discount
assignment.
-/

/-- `round(x, 2)` from Python: round to 2 decimal places.  (Python uses
round-half-even on floats; every equation proved below applies the same
rounding on both sides and every concrete input avoids half-way points,
so the tie-breaking rule is irrelevant to the claims.) -/
def round2 (q : ℚ) : ℚ := (round (q * 100) : ℤ) / 100

/-- The `Item` dataclass: `name`, `price`, `category`, `id`
(`id` is drawn from the process-wide `_id_seq` counter at creation). -/
structure Item where
  name : String
  price : ℚ
  category : String
  id : ℕ
deriving DecidableEq, Repr

/-- `Item.apply_discount`: clamp `percent` into [0, 100], then
`round(self.price * (1.0 - percent / 100.0), 2)`. -/
def Item.apply_discount (i : Item) (percent : ℚ) : ℚ :=
  let p := max 0 (min percent 100)
  round2 (i.price * (1 - p / 100))

/-- `filter_items(items, min_price=..., category=...)`: builds a list of
predicates (price ≥ min_price when supplied; case-insensitive category
equality when supplied); with no predicates returns `list(items)`,
otherwise `filter` by the conjunction of all predicates. -/
def filter_items (items : List Item) (min_price : Option ℚ)
    (category : Option String) : List Item :=
  let preds : List (Item → Bool) :=
    (match min_price with
     | some m => [fun i => decide (i.price ≥ m)]
     | none => []) ++
    (match category with
     | some c => [fun i => decide (i.category.toLower = c.toLower)]
     | none => [])
  if preds.isEmpty then items
  else items.filter (fun i => preds.all (fun p => p i))

/-- `fetch_tax_rate(category)` minus the latency sleep: case-insensitive
dictionary lookup with default 0.07. -/
def fetch_tax_rate (category : String) : ℚ :=
  let c := category.toLower
  if c = "electronics" then 13/100
  else if c = "furniture" then 8/100
  else if c = "stationery" then 5/100
  else 7/100

/-- The adjusted-price record built by `compute_adjusted_price`. -/
structure Quote where
  item : Item
  tax_rate : ℚ
  discount_percent : ℚ
  taxed_price : ℚ
  final_price : ℚ
deriving DecidableEq, Repr

/-- `compute_adjusted_price(item)`: gathers the tax rate (deterministic
given the category) and a random discount percent (here an explicit
argument), then computes the taxed and final prices. -/
def compute_adjusted_price (item : Item) (discount_pct : ℚ) : Quote :=
  let tax_rate := fetch_tax_rate item.category
  { item := item
    tax_rate := tax_rate
    discount_percent := discount_pct
    taxed_price := round2 (item.price * (1 + tax_rate))
    final_price := round2 (item.apply_discount discount_pct * (1 + tax_rate)) }

/-- The `GET /async/quotes` handler body: `asyncio.gather` over one
`compute_adjusted_price` task per inventory item, results in inventory
order.  `discounts k` is the random discount drawn by the task for the
item at position `k`. -/
def async_quotes (inv : List Item) (discounts : ℕ → ℚ) : List Quote :=
  inv.enum.map (fun p => compute_adjusted_price p.2 (discounts p.1))

/-- Process state: the `_id_seq` counter plus the inventory's ordered
item list. -/
structure SrvState where
  nextId : ℕ
  items : List Item
deriving DecidableEq, Repr

/-- Constructing `Item(name, price, category)` (drawing the default id
from `_id_seq`) followed by `inventory.add`. -/
def createItem (st : SrvState) (name : String) (price : ℚ)
    (category : String) : Item × SrvState :=
  let it : Item := ⟨name, price, category, st.nextId⟩
  (it, ⟨st.nextId + 1, st.items ++ [it]⟩)

/-- Run a sequence of item creations (name, price, category). -/
def runCreates (st : SrvState) (specs : List (String × ℚ × String)) : SrvState :=
  specs.foldl (fun s t => (createItem s t.1 t.2.1 t.2.2).2) st

/-- Fresh-process state: `_id_seq = count(1)`, empty inventory. -/
def initState : SrvState := ⟨1, []⟩

/-- The five seed items of `inventory`, in source order. -/
def seedSpecs : List (String × ℚ × String) :=
  [("USB-C Cable", 999/100, "electronics"),
   ("Wireless Mouse", 49/2, "electronics"),
   ("Notebook (A5)", 13/4, "stationery"),
   ("Office Chair", 189, "furniture"),
   ("Standing Desk", 39999/100, "furniture")]

/-- The process state right after the module-level seed data runs. -/
def seededState : SrvState := runCreates initState seedSpecs

/-- Python `str.strip()`: drop whitespace from both ends. -/
def pyStrip (s : String) : String :=
  ⟨((s.data.dropWhile Char.isWhitespace).reverse.dropWhile Char.isWhitespace).reverse⟩

/-- Digit-string value: `none` when empty or containing a non-digit. -/
def digitsVal (cs : List Char) : Option ℕ :=
  if cs.isEmpty then none
  else if cs.all Char.isDigit then
    some (cs.foldl (fun a c => a * 10 + (c.toNat - 48)) 0)
  else none

/-- Python `float(s)` on a string, restricted to plain decimal literals
(optional sign, digits, optional fractional part, surrounding
whitespace); `none` models the raised `ValueError`.  Exponent/inf/nan
syntax is out of scope for every claim. -/
def parseFloat (s : String) : Option ℚ :=
  let cs := (pyStrip s).data
  let sc : ℚ × List Char :=
    match cs with
    | '-' :: rest => (-1, rest)
    | '+' :: rest => (1, rest)
    | _ => (1, cs)
  let ip := sc.2.takeWhile (fun c => c ≠ '.')
  match sc.2.dropWhile (fun c => c ≠ '.') with
  | [] => (digitsVal ip).map (fun n => sc.1 * n)
  | _ :: fp =>
    if fp.contains '.' then none
    else if ip.isEmpty && fp.isEmpty then none
    else
      let iv : Option ℕ := if ip.isEmpty then some 0 else digitsVal ip
      let fv : Option ℕ := if fp.isEmpty then some 0 else digitsVal fp
      match iv, fv with
      | some i, some f => some (sc.1 * ((i : ℚ) + (f : ℚ) / (10 : ℚ) ^ fp.length))
      | _, _ => none

/-- A JSON / form field value as `create_item` sees it: a string or a
number.  (Form bodies only ever produce strings; JSON can produce
either.) -/
inductive Val where
  | str (s : String)
  | num (q : ℚ)
deriving DecidableEq, Repr

/-- The parsed request body restricted to the three keys `create_item`
reads; `none` is an absent key (`dict.get` returning `None`). -/
structure Body where
  name : Option Val
  price : Option Val
  category : Option Val
deriving DecidableEq, Repr

/-- Python truthiness of `data.get(key)`: `None` and the empty string
and the number 0 are falsy. -/
def truthy : Option Val → Bool
  | none => false
  | some (Val.str s) => !s.isEmpty
  | some (Val.num q) => decide (q ≠ 0)

/-- `isinstance(name, str)` on `data.get("name")`. -/
def isStr : Option Val → Bool
  | some (Val.str _) => true
  | _ => false

/-- Python `float(price)` on a field value; `none` models the exception
caught by `create_item`'s `try`. -/
def toFloat : Val → Option ℚ
  | Val.num q => some q
  | Val.str s => parseFloat s

/-- The HTTP-visible outcome of the `POST /items` handler.
`serverError` is an exception escaping the handler (Flask turns it into
a 500 response). -/
inductive CreateOutcome where
  | created (item : Item)
  | badRequest (msg : String)
  | serverError
deriving DecidableEq, Repr

/-- The `create_item` route handler on an already-parsed body: validate
(`not isinstance(name, str) or not category or not price`), coerce the
price with `float`, then build and add the item, stripping name and
category.  `category.strip()` on a non-string raises, hence
`serverError`.  The returned state is the process state after the
request. -/
def create_item (st : SrvState) (b : Body) : CreateOutcome × SrvState :=
  match b.name with
  | some (Val.str ns) =>
    if !truthy b.category || !truthy b.price then
      (CreateOutcome.badRequest "Invalid payload. Expect name, price, category", st)
    else
      match b.price, b.category with
      | some pv, some cv =>
        match toFloat pv with
        | none => (CreateOutcome.badRequest "Price must be a number", st)
        | some q =>
          match cv with
          | Val.str cs =>
            let r := createItem st (pyStrip ns) q (pyStrip cs)
            (CreateOutcome.created r.1, r.2)
          | Val.num _ => (CreateOutcome.serverError, st)
      | _, _ =>
        (CreateOutcome.badRequest "Invalid payload. Expect name, price, category", st)
  | _ => (CreateOutcome.badRequest "Invalid payload. Expect name, price, category", st)

/-- Is the parsed body the empty dict (no relevant key present)?  Our
body model only carries the three keys the handler reads. -/
def Body.isEmptyDict (b : Body) : Bool :=
  b.name.isNone && b.price.isNone && b.category.isNone

/-- The body-acquisition line of `create_item`:
`request.get_json(force=True, silent=True) or request.form.to_dict()`.
`jsonBody = none` is an unparseable JSON body (with `silent=True`,
`get_json` returns `None` instead of raising); a parsed-but-falsy JSON
value (the empty object) also falls through to the form dict. -/
def request_body (jsonBody : Option Body) (formBody : Body) : Body :=
  match jsonBody with
  | none => formBody
  | some b => if b.isEmptyDict then formBody else b

/-- The full `POST /items` handler: acquire the body, then run
`create_item`'s validation and creation logic. -/
def handle_post_items (st : SrvState) (jsonBody : Option Body)
    (formBody : Body) : CreateOutcome × SrvState :=
  create_item st (request_body jsonBody formBody)

/-- Outcome of a read-only route: a 200 JSON list of items, or an
exception escaping the handler (a 500). -/
inductive ReadOutcome where
  | ok (body : List Item)
  | serverError
deriving DecidableEq, Repr

/-- `GET /items/expensive`: `float(request.args.get("min", 100))` with
`ValueError`/`TypeError` caught and replaced by `100.0`, then
`inventory.expensive(min_price)` (price ≥ min). -/
def get_expensive (inv : List Item) (minParam : Option String) : ReadOutcome :=
  let min_price : ℚ :=
    match minParam with
    | none => 100
    | some s => (parseFloat s).getD 100
  ReadOutcome.ok (inv.filter (fun i => decide (i.price ≥ min_price)))

/-- `GET /items/search`: `float(min)` is applied with NO exception
handler when the `min` parameter is present, so an unparseable value
raises out of the handler; otherwise `filter_items` runs. -/
def search_items (inv : List Item) (minParam categoryParam : Option String) :
    ReadOutcome :=
  match minParam with
  | none => ReadOutcome.ok (filter_items inv none categoryParam)
  | some s =>
    match parseFloat s with
    | none => ReadOutcome.serverError
    | some m => ReadOutcome.ok (filter_items inv (some m) categoryParam)

/-! ## Helper lemmas -/

/-- `create_item` on a fully valid body (string name, truthy price that
coerces to `q`, non-empty string category) creates the item with trimmed
name and category, price `q`, and the next sequence id, appending it to
the inventory. -/
lemma create_item_valid (st : SrvState) (ns cs : String) (pv : Val) (q : ℚ)
    (hcs : cs ≠ "") (hpt : truthy (some pv) = true) (hq : toFloat pv = some q) :
    create_item st ⟨some (Val.str ns), some pv, some (Val.str cs)⟩ =
      (CreateOutcome.created ⟨pyStrip ns, q, pyStrip cs, st.nextId⟩,
       ⟨st.nextId + 1, st.items ++ [⟨pyStrip ns, q, pyStrip cs, st.nextId⟩]⟩) := by
  have hcse : cs.isEmpty = false := by
    rcases h : cs.isEmpty with _ | _
    · rfl
    · exact absurd (String.isEmpty_iff cs |>.mp h) hcs
  have htc : truthy (some (Val.str cs)) = true := by simp [truthy, hcse]
  simp [create_item, htc, hpt, hq, createItem]

/-- Unfolding `runCreates`: the id counter advances by the number of
creations and the new items carry the consecutive ids
`st.nextId, st.nextId + 1, …`. -/
lemma runCreates_ids (specs : List (String × ℚ × String)) (st : SrvState) :
    (runCreates st specs).nextId = st.nextId + specs.length ∧
    (runCreates st specs).items.map Item.id =
      st.items.map Item.id ++ List.range' st.nextId specs.length := by
  induction specs generalizing st with
  | nil => simp [runCreates]
  | cons t ts ih =>
    have step : runCreates st (t :: ts) =
        runCreates ⟨st.nextId + 1, st.items ++ [⟨t.1, t.2.1, t.2.2, st.nextId⟩]⟩ ts := rfl
    obtain ⟨h1, h2⟩ := ih ⟨st.nextId + 1, st.items ++ [⟨t.1, t.2.1, t.2.2, st.nextId⟩]⟩
    constructor
    · rw [step, h1]; simp; omega
    · rw [step, h2]
      simp [List.range'_succ]

/-! ## Claim theorems -/

/-- Claim C5: `apply_discount` first clamps the percent into [0, 100],
then returns the price times (1 - percent/100) rounded to 2 decimal
places (it is a pure function of the item's price); in particular for an
item priced 100, `apply_discount (-10) = apply_discount 0 = 100` and
`apply_discount 150 = apply_discount 100 = 0`. -/
theorem claim_C5 (i : Item) (percent : ℚ) :
    i.apply_discount percent =
      round2 (i.price * (1 - (max 0 (min percent 100)) / 100)) ∧
    (i.price = 100 →
      i.apply_discount (-10) = 100 ∧ i.apply_discount 0 = 100 ∧
      i.apply_discount 150 = 0 ∧ i.apply_discount 100 = 0) := by
  refine ⟨rfl, fun h => ?_⟩
  simp [Item.apply_discount, h, round2]
  norm_num

/-- Witness for C5 at a concrete item of price 100. -/
theorem claim_C5_witness :
    (⟨"w", 100, "c", 1⟩ : Item).apply_discount (-10) = 100 ∧
    (⟨"w", 100, "c", 1⟩ : Item).apply_discount 0 = 100 ∧
    (⟨"w", 100, "c", 1⟩ : Item).apply_discount 150 = 0 ∧
    (⟨"w", 100, "c", 1⟩ : Item).apply_discount 100 = 0 :=
  (claim_C5 ⟨"w", 100, "c", 1⟩ (-10)).2 rfl

/-- Claim C4: `filter_items` returns exactly the input items satisfying
all supplied predicates (price ≥ min_price; case-insensitive category
equality), in input order — i.e. it equals a single `List.filter` by the
conjunction of the supplied predicates — and with neither filter
supplied it returns the input unchanged. -/
theorem claim_C4 (items : List Item) (mp : Option ℚ) (c : Option String) :
    filter_items items mp c = items.filter (fun i =>
      (match mp with
       | none => true
       | some m => decide (i.price ≥ m)) &&
      (match c with
       | none => true
       | some cat => decide (i.category.toLower = cat.toLower))) ∧
    filter_items items none none = items := by
  constructor
  · cases mp <;> cases c <;>
      simp [filter_items, List.filter_true]
  · simp [filter_items]

/-- Claim C1: for every inventory state (and every draw of the random
per-item discounts), `GET /async/quotes` returns exactly one
adjusted-price record per item in inventory order, and each record has
`taxed_price = round2(price * (1 + tax_rate))`,
`final_price = round2(apply_discount(price, discount) * (1 + tax_rate))`,
with `tax_rate` the fixed case-insensitive table value for the item's
category. -/
theorem claim_C1 (inv : List Item) (discounts : ℕ → ℚ) :
    (async_quotes inv discounts).length = inv.length ∧
    ∀ (k : ℕ) (it : Item), inv[k]? = some it →
      ∃ q, (async_quotes inv discounts)[k]? = some q ∧
        q.item = it ∧
        q.discount_percent = discounts k ∧
        q.tax_rate =
          (if it.category.toLower = "electronics" then 13/100
           else if it.category.toLower = "furniture" then 8/100
           else if it.category.toLower = "stationery" then 5/100
           else 7/100) ∧
        q.taxed_price = round2 (it.price * (1 + q.tax_rate)) ∧
        q.final_price =
          round2 (it.apply_discount q.discount_percent * (1 + q.tax_rate)) := by
  constructor
  · simp [async_quotes, List.enum_length]
  · intro k it hk
    refine ⟨compute_adjusted_price it (discounts k), ?_, rfl, rfl, rfl, rfl, rfl⟩
    simp [async_quotes, List.getElem?_enum, hk]

/-- Witness for C1 at the seed inventory, position 0, with every
random discount drawn as 5. -/
theorem claim_C1_witness :
    ∃ q, (async_quotes seededState.items (fun _ => 5))[0]? = some q ∧
      q.item = ⟨"USB-C Cable", 999/100, "electronics", 1⟩ ∧
      q.discount_percent = (fun _ => (5 : ℚ)) 0 ∧
      q.tax_rate =
        (if (⟨"USB-C Cable", 999/100, "electronics", 1⟩ : Item).category.toLower = "electronics" then 13/100
         else if (⟨"USB-C Cable", 999/100, "electronics", 1⟩ : Item).category.toLower = "furniture" then 8/100
         else if (⟨"USB-C Cable", 999/100, "electronics", 1⟩ : Item).category.toLower = "stationery" then 5/100
         else 7/100) ∧
      q.taxed_price = round2 ((999/100 : ℚ) * (1 + q.tax_rate)) ∧
      q.final_price =
        round2 ((⟨"USB-C Cable", 999/100, "electronics", 1⟩ : Item).apply_discount q.discount_percent * (1 + q.tax_rate)) :=
  (claim_C1 seededState.items (fun _ => 5)).2 0
    ⟨"USB-C Cable", 999/100, "electronics", 1⟩ rfl

/-- Shared ground fact: the string "1.5" coerces to the rational 3/2. -/
lemma toFloat_one_point_five : toFloat (Val.str "1.5") = some (3/2 : ℚ) := by
  have h : toFloat (Val.str "1.5") =
      some ((1 : ℚ) * (((1 : ℕ) : ℚ) + ((5 : ℕ) : ℚ) / (10 : ℚ) ^ (1 : ℕ))) := rfl
  rw [h]; norm_num

/-- Shared ground fact: the string "0" coerces to the rational 0. -/
lemma toFloat_zero_str : toFloat (Val.str "0") = some (0 : ℚ) := by
  have h : toFloat (Val.str "0") = some ((1 : ℚ) * ((0 : ℕ) : ℚ)) := rfl
  rw [h]; norm_num

/-- Claim C6: starting from the seeded process, after any further
sequence of creations the inventory's ids are exactly 1, 2, …, n in
order — strictly increasing from 1, pairwise distinct — and the five
seed items received ids 1–5. -/
theorem claim_C6 (specs : List (String × ℚ × String)) :
    (runCreates seededState specs).items.map Item.id =
      List.range' 1 (5 + specs.length) ∧
    List.Chain' (fun a b => a < b)
      ((runCreates seededState specs).items.map Item.id) ∧
    ((runCreates seededState specs).items.map Item.id).Nodup ∧
    seededState.items.map Item.id = [1, 2, 3, 4, 5] := by
  obtain ⟨-, h2⟩ := runCreates_ids specs seededState
  have hseed : seededState.items.map Item.id = [1, 2, 3, 4, 5] := rfl
  have hnext : seededState.nextId = 6 := rfl
  have hmap : (runCreates seededState specs).items.map Item.id =
      List.range' 1 (5 + specs.length) := by
    rw [h2, hseed, hnext]
    have h15 : ([1, 2, 3, 4, 5] : List ℕ) = List.range' 1 5 := rfl
    rw [h15]
    have := List.range'_append_1 1 5 specs.length
    simp only [show 1 + 5 = 6 from rfl] at this
    rw [this, Nat.add_comm]
  refine ⟨hmap, ?_, ?_, hseed⟩
  · rw [hmap]
    exact (List.pairwise_lt_range' 1 (5 + specs.length)).chain'
  · rw [hmap]
    exact List.nodup_range' 1 (5 + specs.length)

/-- Claim C7: a POST /items request with a string name, a truthy price
coercible to the number `q`, and a non-empty string category gets a 201
response carrying the created item: price `q`, id the next sequence
value (6 on the seeds-only state), name and category stripped of
surrounding whitespace; the item is appended to the inventory.  The
string "1.5" coerces to 1.5 = 3/2. -/
theorem claim_C7 (st : SrvState) (b : Body) (ns cs : String) (pv : Val) (q : ℚ)
    (hn : b.name = some (Val.str ns))
    (hp : b.price = some pv)
    (hc : b.category = some (Val.str cs))
    (hpt : truthy (some pv) = true)
    (hcs : cs ≠ "")
    (hq : toFloat pv = some q) :
    create_item st b =
      (CreateOutcome.created ⟨pyStrip ns, q, pyStrip cs, st.nextId⟩,
       ⟨st.nextId + 1, st.items ++ [⟨pyStrip ns, q, pyStrip cs, st.nextId⟩]⟩) ∧
    seededState.nextId = 6 ∧
    toFloat (Val.str "1.5") = some (3/2 : ℚ) := by
  obtain ⟨bn, bp, bc⟩ := b
  simp only at hn hp hc
  subst hn; subst hp; subst hc
  exact ⟨create_item_valid st ns cs pv q hcs hpt hq, rfl, toFloat_one_point_five⟩

/-- Witness for C7: posting name " Pen ", price "1.5", category
"stationery" on the seeds-only state creates item 6 with price 3/2 and
stripped text fields. -/
theorem claim_C7_witness :
    create_item seededState
        ⟨some (Val.str " Pen "), some (Val.str "1.5"), some (Val.str "stationery")⟩ =
      (CreateOutcome.created ⟨"Pen", 3/2, "stationery", 6⟩,
       ⟨7, seededState.items ++ [⟨"Pen", 3/2, "stationery", 6⟩]⟩) :=
  (claim_C7 seededState
    ⟨some (Val.str " Pen "), some (Val.str "1.5"), some (Val.str "stationery")⟩
    " Pen " "stationery" (Val.str "1.5") (3/2) rfl rfl rfl (by decide) (by decide)
    toFloat_one_point_five).1

/-- Counterexample to C2 as stated: a body whose name is present but
EMPTY (with valid price and category) is not rejected with 400 — the
item is created with the empty name and appended to the inventory,
because the handler only checks `isinstance(name, str)`. -/
theorem claim_C2_counterexample :
    create_item initState ⟨some (Val.str ""), some (Val.num 2), some (Val.str "x")⟩ =
      (CreateOutcome.created ⟨"", 2, "x", 1⟩, ⟨2, [⟨"", 2, "x", 1⟩]⟩) := rfl

/-- Claim C2 (amended): a missing or non-string name, or a missing or
falsy (empty / zero) price or category, yields 400 with the invalid
payload message; when those checks pass but the price cannot be parsed
as a number, 400 with the price message; each failure leaves the state
unchanged.  (An empty-string name passes validation.) -/
theorem claim_C2_amended_thm (st : SrvState) (b : Body) :
    ((isStr b.name = false ∨ truthy b.price = false ∨ truthy b.category = false) →
      create_item st b =
        (CreateOutcome.badRequest "Invalid payload. Expect name, price, category", st)) ∧
    (∀ ns pv, b.name = some (Val.str ns) → b.price = some pv →
      truthy (some pv) = true → truthy b.category = true → toFloat pv = none →
      create_item st b = (CreateOutcome.badRequest "Price must be a number", st)) := by
  obtain ⟨bn, bp, bc⟩ := b
  constructor
  · intro h
    match bn with
    | none => rfl
    | some (Val.num _) => rfl
    | some (Val.str ns) =>
      rcases h with h | h | h
      · simp [isStr] at h
      · simp only at h
        simp [create_item, h]
      · simp only at h
        simp [create_item, h]
  · intro ns pv hn hp hpt hct hq
    simp only at hn hp hct
    subst hn; subst hp
    match bc, hct with
    | some cv, hct =>
      simp [create_item, hpt, hct, hq]

/-- Witness for the amended C2: a missing name gives the invalid-payload
400, and an unparseable price string gives the price 400; both leave the
state unchanged. -/
theorem claim_C2_witness :
    create_item initState ⟨none, some (Val.num 2), some (Val.str "x")⟩ =
      (CreateOutcome.badRequest "Invalid payload. Expect name, price, category", initState) ∧
    create_item initState ⟨some (Val.str "Pen"), some (Val.str "abc"), some (Val.str "x")⟩ =
      (CreateOutcome.badRequest "Price must be a number", initState) :=
  ⟨(claim_C2_amended_thm initState ⟨none, some (Val.num 2), some (Val.str "x")⟩).1
      (Or.inl rfl),
   (claim_C2_amended_thm initState
      ⟨some (Val.str "Pen"), some (Val.str "abc"), some (Val.str "x")⟩).2
      "Pen" (Val.str "abc") rfl rfl (by decide) (by decide) rfl⟩

/-- Counterexample to C3 as stated: on GET /items/search a `min` query
parameter that does not parse as a number makes the handler raise
(500), instead of falling back to a default with a 200 response. -/
theorem claim_C3_counterexample :
    search_items seededState.items (some "abc") none = ReadOutcome.serverError := rfl

/-- Claim C3 (amended): only /items/expensive recovers locally — it
always returns 200, an unparseable `min` falling back to the default
100; /items/search raises an unhandled error (500) on an unparseable
`min`. -/
theorem claim_C3_amended_thm (inv : List Item) (minParam cParam : Option String)
    (s : String) (hs : parseFloat s = none) :
    (∃ body, get_expensive inv minParam = ReadOutcome.ok body) ∧
    get_expensive inv (some s) =
      ReadOutcome.ok (inv.filter (fun i => decide (i.price ≥ 100))) ∧
    search_items inv (some s) cParam = ReadOutcome.serverError := by
  refine ⟨⟨_, rfl⟩, ?_, ?_⟩
  · simp [get_expensive, hs]
  · simp [search_items, hs]

/-- Witness for the amended C3 on the seed inventory with min "abc". -/
theorem claim_C3_witness :
    (∃ body, get_expensive seededState.items none = ReadOutcome.ok body) ∧
    get_expensive seededState.items (some "abc") =
      ReadOutcome.ok (seededState.items.filter (fun i => decide (i.price ≥ 100))) ∧
    search_items seededState.items (some "abc") none = ReadOutcome.serverError :=
  claim_C3_amended_thm seededState.items none none "abc" rfl

/-- Counterexample to C8 as stated: the price STRING "0" is truthy, so
the request is not rejected — the item is created (with price 0) and
appended, contradicting the claim's or-the-string-"0" part. -/
theorem claim_C8_counterexample :
    (create_item initState
        ⟨some (Val.str "Pen"), some (Val.str "0"), some (Val.str "x")⟩).1 ≠
      CreateOutcome.badRequest "Invalid payload. Expect name, price, category" ∧
    (create_item initState
        ⟨some (Val.str "Pen"), some (Val.str "0"), some (Val.str "x")⟩).2.items.map
        Item.price = [0] := by
  constructor
  · intro h
    exact CreateOutcome.noConfusion h
  · have h : (create_item initState
        ⟨some (Val.str "Pen"), some (Val.str "0"), some (Val.str "x")⟩).2.items.map
        Item.price = [(1 : ℚ) * ((0 : ℕ) : ℚ)] := rfl
    rw [h]; norm_num

/-- Claim C8 (amended): a price equal to the JSON NUMBER 0 is rejected
with the invalid-payload 400 (the presence check uses truthiness), but
the STRING "0" is truthy: it passes validation and creates an item
whose price is 0. -/
theorem claim_C8_amended_thm (st : SrvState) (b : Body) (ns cs : String) :
    (b.price = some (Val.num 0) →
      create_item st b =
        (CreateOutcome.badRequest "Invalid payload. Expect name, price, category", st)) ∧
    (cs ≠ "" →
      create_item st ⟨some (Val.str ns), some (Val.str "0"), some (Val.str cs)⟩ =
        (CreateOutcome.created ⟨pyStrip ns, 0, pyStrip cs, st.nextId⟩,
         ⟨st.nextId + 1, st.items ++ [⟨pyStrip ns, 0, pyStrip cs, st.nextId⟩]⟩)) := by
  constructor
  · obtain ⟨bn, bp, bc⟩ := b
    intro h
    simp only at h
    subst h
    match bn with
    | none => rfl
    | some (Val.num _) => rfl
    | some (Val.str ns) => simp [create_item, truthy]
  · intro hcs
    exact create_item_valid st ns cs (Val.str "0") 0 hcs (by decide) toFloat_zero_str

/-- Witness for the amended C8: the number 0 is rejected, the string
"0" creates item 1 with price 0. -/
theorem claim_C8_witness :
    create_item initState ⟨some (Val.str "Pen"), some (Val.num 0), some (Val.str "x")⟩ =
      (CreateOutcome.badRequest "Invalid payload. Expect name, price, category", initState) ∧
    create_item initState ⟨some (Val.str "Pen"), some (Val.str "0"), some (Val.str "x")⟩ =
      (CreateOutcome.created ⟨"Pen", 0, "x", 1⟩, ⟨2, [⟨"Pen", 0, "x", 1⟩]⟩) :=
  ⟨(claim_C8_amended_thm initState
      ⟨some (Val.str "Pen"), some (Val.num 0), some (Val.str "x")⟩ "" "").1 rfl,
   (claim_C8_amended_thm initState
      ⟨none, none, none⟩ "Pen" "x").2 (by decide)⟩

/-- Claim C9: an unparseable JSON body does not fail the request — the
handler falls back to the form body; and when the form is empty too,
the result is the 400 invalid-payload error (state unchanged), not a
500. -/
theorem claim_C9 (st : SrvState) (formBody : Body) :
    handle_post_items st none formBody = create_item st formBody ∧
    handle_post_items st none ⟨none, none, none⟩ =
      (CreateOutcome.badRequest "Invalid payload. Expect name, price, category", st) :=
  ⟨rfl, rfl⟩

/-- Claim C10: a present, truthy, non-string category (a nonzero JSON
number) with a string name and a truthy numeric price passes
validation, and the unguarded `category.strip()` raises — an unhandled
500, with the state unchanged. -/
theorem claim_C10 (st : SrvState) (ns : String) (q c : ℚ)
    (hq : q ≠ 0) (hc : c ≠ 0) :
    create_item st ⟨some (Val.str ns), some (Val.num q), some (Val.num c)⟩ =
      (CreateOutcome.serverError, st) := by
  have h1 : truthy (some (Val.num q)) = true := by simp [truthy, hq]
  have h2 : truthy (some (Val.num c)) = true := by simp [truthy, hc]
  simp [create_item, h1, h2, toFloat]

/-- Witness for C10: category 7 (a number) with name "Pen" and price 2
produces the server error. -/
theorem claim_C10_witness :
    create_item initState ⟨some (Val.str "Pen"), some (Val.num 2), some (Val.num 7)⟩ =
      (CreateOutcome.serverError, initState) :=
  claim_C10 initState "Pen" 2 7 (by norm_num) (by norm_num)
